import Mathlib

/-!
Verification development for the OrcaNet training harness
(`orcanet/utilities/nn_utilities.py` and `orcanet/model_setup.py`).

Modelling conventions:
* numpy float arrays are modelled over `ℚ` (exact field arithmetic standing in
  for the real-number semantics of the numerical code);
* an HDF5 dataset is a `List` of rows; the Python slice `l[a:b]` is `pySlice`;
* a label row (`y_values[c]`) is a `List ℚ` indexed as in the source
  (`event_id -> 0, particle_type -> 1, energy -> 2, isCC -> 3, bjorkeny -> 4,
  dir_x/y/z -> 5/6/7, ...`), read with `List.getD` (out-of-range indexing
  raises in Python and is not exercised by the theorems below);
* `np.reshape` and `astype` preserve the flattened content of an array, so the
  model keeps the row lists unchanged where the source only reshapes
  (`get_dimensions_encoding_prod` below checks that the reshape target has the
  right size);
* code that raises (`ValueError`, `KeyError`, `AssertionError`) returns
  `Except.error` with the exception name in the message;
* the `swap_col`-not-`None` branches of the generator transpose axes of the
  already-read slices; all claims concern `swap_col = None`, which is the
  modelled path.
-/

/-- Python slice `l[a:b]` (for `a ≤ b`): drop `a` elements, keep `b - a`. -/
def pySlice {α : Type} (l : List α) (a b : ℕ) : List α :=
  (l.drop a).take (b - a)

/-- `np.zeros(n)` followed by `arr[k] = 1`: a one-hot vector of length `n`. -/
def oneHotQ (n k : ℕ) : List ℚ :=
  (List.replicate n (0 : ℚ)).set k 1

/-- The dict `{(12, 0): 0, (12, 1): 1, (14, 1): 2, (16, 1): 3}` of
`convert_particle_class_to_categorical` (`nn_utilities.py` line 338);
`none` models a `KeyError` on lookup. -/
def particle_type_dict (p : ℚ × ℚ) : Option ℕ :=
  if p = (12, 0) then some 0
  else if p = (12, 1) then some 1
  else if p = (14, 1) then some 2
  else if p = (16, 1) then some 3
  else none

/-- `convert_particle_class_to_categorical` (`nn_utilities.py` lines 329-346):
looks up `(abs(particle_type), is_cc)` in `particle_type_dict` and returns the
one-hot categorical array of length `num_classes`. -/
def convert_particle_class_to_categorical (particle_type is_cc : ℚ)
    (num_classes : ℕ) : Except String (List ℚ) :=
  if num_classes = 4 then
    match particle_type_dict (|particle_type|, is_cc) with
    | some category => .ok (oneHotQ num_classes category)
    | none => .error "KeyError: particle type not in particle_type_dict"
  else
    .error "ValueError: A number of classes other than 4 is currently not supported!"

/-- `get_class_up_down_categorical` (`nn_utilities.py` lines 301-326).
`rnd` supplies the value of `np.random.randint(2)` used when `dir_z == 0`. -/
def get_class_up_down_categorical (dir_z : ℚ) (n_neurons : ℕ) (rnd : ℕ) : List ℚ :=
  let sign0 : ℤ := if dir_z < 0 then -1 else if dir_z = 0 then 0 else 1
  let withRand : ℤ := if sign0 = 0 then ((rnd % 2 : ℕ) : ℤ) else sign0
  let up_down_class_value : ℕ := if withRand = -1 then 0 else withRand.toNat
  if n_neurons = 1 then [(up_down_class_value : ℚ)]
  else oneHotQ n_neurons up_down_class_value

/-- `encode_targets` (`nn_utilities.py` lines 290-379). The source returns the
input event array `y_val` unchanged for unknown class-type identifiers; known
identifiers return the encoded label array. `rnd` threads the randomness used
only by the `up_down` branch. -/
def encode_targets (y_val : List ℚ) (class_type : ℕ × String) (rnd : ℕ) :
    Except String (List ℚ) :=
  if class_type.2 = "track-shower" then
    if class_type.1 = 2 then
      match convert_particle_class_to_categorical (y_val.getD 1 0) (y_val.getD 3 0) 4 with
      | .ok categorical_type =>
          .ok (if categorical_type.getD 2 0 = 1 then [0, 1] else [1, 0])
      | .error e => .error e
    else .error "AssertionError: class_type[0] must be 2 for track-shower"
  else if class_type.2 = "up_down" then
    .ok (get_class_up_down_categorical (y_val.getD 7 0) class_type.1 rnd)
  else if class_type.2 = "tau-CC_vs_other_neutrinos" then
    match convert_particle_class_to_categorical (y_val.getD 1 0) (y_val.getD 3 0) 4 with
    | .ok categorical_type =>
        if class_type.1 = 1 then
          .ok [if categorical_type.getD 3 0 ≠ 0 then categorical_type.getD 3 0 else 0]
        else if class_type.1 = 2 then
          .ok [categorical_type.getD 3 0,
               if categorical_type.getD 3 0 ≠ 1 then 1 else 0]
        else .error "AssertionError: class_type[0] must be 1 or 2"
    | .error e => .error e
  else
    .ok y_val

/-- Column `j` of a 2D label array: `y_values[:, j]` (the source stores the
slice `[:, j:j+1]`, whose content is this column). -/
def col (j : ℕ) (rows : List (List ℚ)) : List ℚ :=
  rows.map (fun r => r.getD j 0)

/-- The elec-NC correction applied in place by `get_regression_labels`
(`nn_utilities.py` lines 255-258 and 267-271) to one label row: for rows with
`abs(particle_type) == 12` and `is_cc == 0`, column 2 (energy) becomes
`energy * bjorkeny` and column 4 (bjorkeny) becomes 1; other rows unchanged.
The energy update reads the old column 4, matching the statement order. -/
def correct_elec_nc (r : List ℚ) : List ℚ :=
  if |r.getD 1 0| = 12 ∧ r.getD 3 0 = 0 then
    (r.set 2 (r.getD 2 0 * r.getD 4 0)).set 4 1
  else r

/-- `get_regression_labels` (`nn_utilities.py` lines 237-287): builds the dict
of output-key to label-column for the regression class types, applying the
elec-NC visible-energy correction for the two `..._errors` class types. -/
def get_regression_labels (y_values : List (List ℚ)) (class_type : ℕ × String) :
    Except String (List (String × List ℚ)) :=
  if class_type.2 = "energy_and_direction_and_bjorken-y" then
    .ok [("dir_x", col 5 y_values), ("dir_y", col 6 y_values),
         ("dir_z", col 7 y_values), ("energy", col 2 y_values),
         ("bjorken-y", col 4 y_values)]
  else if class_type.2 = "energy_dir_bjorken-y_errors" then
    let yv := y_values.map correct_elec_nc
    .ok [("dir_x", col 5 yv), ("dir_x_err", col 5 yv),
         ("dir_y", col 6 yv), ("dir_y_err", col 6 yv),
         ("dir_z", col 7 yv), ("dir_z_err", col 7 yv),
         ("e", col 2 yv), ("e_err", col 2 yv),
         ("by", col 4 yv), ("by_err", col 4 yv)]
  else if class_type.2 = "energy_dir_bjorken-y_vtx_errors" then
    let yv := y_values.map correct_elec_nc
    .ok [("dx", col 5 yv), ("dx_err", col 5 yv),
         ("dy", col 6 yv), ("dy_err", col 6 yv),
         ("dz", col 7 yv), ("dz_err", col 7 yv),
         ("e", col 2 yv), ("e_err", col 2 yv),
         ("by", col 4 yv), ("by_err", col 4 yv),
         ("vx", col 10 yv), ("vx_err", col 10 yv),
         ("vy", col 11 yv), ("vy_err", col 11 yv),
         ("vz", col 12 yv), ("vz_err", col 12 yv),
         ("vt", col 13 yv), ("vt_err", col 13 yv)]
  else
    .error ("ValueError: The regression label " ++ class_type.2 ++
            " in class_type[1] is not available.")

/-- The column of `get_regression_labels` output stored under `key`
(empty when the key is absent or the call raised). -/
def labelCol (res : Except String (List (String × List ℚ))) (key : String) : List ℚ :=
  match res with
  | .ok ys => (ys.lookup key).getD []
  | .error _ => []

/-- `get_dimensions_encoding` (`nn_utilities.py` lines 184-234), returning the
dimensions tuple as a list. Dimensions with one bin are dropped. -/
def get_dimensions_encoding (n_bins : ℕ × ℕ × ℕ × ℕ) (batchsize : ℕ) : List ℕ :=
  let n_bins_x := n_bins.1
  let n_bins_y := n_bins.2.1
  let n_bins_z := n_bins.2.2.1
  let n_bins_t := n_bins.2.2.2
  if n_bins_x = 1 then
    if n_bins_y = 1 then [batchsize, n_bins_z, n_bins_t, 1]
    else if n_bins_z = 1 then [batchsize, n_bins_y, n_bins_t, 1]
    else if n_bins_t = 1 then [batchsize, n_bins_y, n_bins_z, 1]
    else [batchsize, n_bins_y, n_bins_z, n_bins_t, 1]
  else if n_bins_y = 1 then
    if n_bins_z = 1 then [batchsize, n_bins_x, n_bins_t, 1]
    else if n_bins_t = 1 then [batchsize, n_bins_x, n_bins_z, 1]
    else [batchsize, n_bins_x, n_bins_z, n_bins_t, 1]
  else if n_bins_z = 1 then
    if n_bins_t = 1 then [batchsize, n_bins_x, n_bins_y, 1]
    else [batchsize, n_bins_x, n_bins_y, n_bins_t, 1]
  else if n_bins_t = 1 then [batchsize, n_bins_x, n_bins_y, n_bins_z, 1]
  else [batchsize, n_bins_x, n_bins_y, n_bins_z, n_bins_t]

/-- An open HDF5 file of the generator: the `x` (image) and `y` (label)
datasets, each a list of rows. -/
structure H5File where
  x : List (List ℚ)
  y : List (List ℚ)
deriving DecidableEq

/-- Default used for out-of-range file indexing (never reached by the claims,
which keep indices below `files.length`). -/
def emptyH5 : H5File := ⟨[], []⟩

/-- The `ys` part of a yielded batch: a dict of regression labels
(`class_type[1] != "track-shower"`) or the categorical label matrix. -/
inductive YsOut where
  | regression (ys : List (String × List ℚ))
  | categorical (ys : List (List ℚ))
deriving DecidableEq

/-- One yielded tuple of `generate_batches_from_hdf5_file`: the per-file list
of image slices `xs_list`, the labels `ys`, and the raw `y_values`
(the latter is yielded only with `yield_mc_info=True`, but is always read). -/
structure GenOut where
  xs_list : List (List (List ℚ))
  ys : YsOut
  y_values : List (List ℚ)
deriving DecidableEq

/-- The `xs` dict of one generator iteration (`nn_utilities.py` lines 54-62)
followed by the `swap_col is None` assembly of `xs_list` (lines 88-90): for
each file `i`, the image slice `[n_entries, n_entries + batchsize)`, minus the
per-file `zero_center_image[i]` when zero-centering is enabled. -/
def batchXs (files : List H5File) (zero_center_image : Option (List (List ℚ)))
    (batchsize n_entries : ℕ) : List (List (List ℚ)) :=
  (List.range files.length).map (fun i =>
    let xsi := pySlice (files.getD i emptyH5).x n_entries (n_entries + batchsize)
    match zero_center_image with
    | none => xsi
    | some zc => xsi.map (fun row => List.zipWith (fun a b => a - b) row (zc.getD i [])))

/-- One iteration of the inner `while` body of `generate_batches_from_hdf5_file`
(`nn_utilities.py` lines 53-110) at offset `n_entries`: image slices from all
files, `y_values` from the slice of the first file only (line 93), labels via
`get_regression_labels` or per-row `encode_targets`. -/
def batchAt (files : List H5File) (batchsize : ℕ) (class_type : ℕ × String)
    (zero_center_image : Option (List (List ℚ))) (n_entries : ℕ) :
    Except String GenOut :=
  let xs_list := batchXs files zero_center_image batchsize n_entries
  let y_values := pySlice (files.getD 0 emptyH5).y n_entries (n_entries + batchsize)
  if class_type.2 ≠ "track-shower" then
    match get_regression_labels y_values class_type with
    | .ok ys => .ok ⟨xs_list, .regression ys, y_values⟩
    | .error e => .error e
  else
    match y_values.mapM (fun y_val => encode_targets y_val class_type 0) with
    | .ok ys => .ok ⟨xs_list, .categorical ys, y_values⟩
    | .error e => .error e

/-- The sequence of `n_entries` offsets at which the inner `while` loop
(`nn_utilities.py` lines 51-52, 106) yields a batch. The Python guard
`n_entries <= f_size - batchsize` over ints is `n_entries + batchsize ≤ f_size`
over `ℕ`; the `1 ≤ batchsize` conjunct only cuts off the source's
non-termination at `batchsize = 0`. -/
def batchLoop (batchsize f_size n_entries : ℕ) : List ℕ :=
  if h : 1 ≤ batchsize ∧ n_entries + batchsize ≤ f_size then
    n_entries :: batchLoop batchsize f_size (n_entries + batchsize)
  else
    []
termination_by f_size - n_entries
decreasing_by omega

/-- Offsets of one pass of the inner loop, starting from `n_entries = 0`. -/
def batchStarts (batchsize f_size : ℕ) : List ℕ :=
  batchLoop batchsize f_size 0

/-- One pass of the inner loop of `generate_batches_from_hdf5_file`: the list
of batches yielded between two re-openings of the files. -/
def generatorPass (files : List H5File) (batchsize f_size : ℕ)
    (class_type : ℕ × String) (zero_center_image : Option (List (List ℚ))) :
    List (Except String GenOut) :=
  (batchStarts batchsize f_size).map
    (batchAt files batchsize class_type zero_center_image)

/-- `np.mean` of a list of rationals (`np.mean` of an empty slice is NaN in
numpy; here division by zero yields 0 -- no theorem below touches that case). -/
def listMean (l : List ℚ) : ℚ :=
  l.sum / (l.length : ℚ)

/-- The slice of the `x` dataset averaged in step `i` of `get_mean_image`
(`nn_utilities.py` lines 558-561): up to `n_rows` for the last step (or when
`steps == 1`), else `[i*stepsize, (i+1)*stepsize)`. -/
def chunkSlice (xs : List ℚ) (steps stepsize i : ℕ) : List ℚ :=
  if i = steps - 1 ∨ steps = 1 then pySlice xs (i * stepsize) xs.length
  else pySlice xs (i * stepsize) ((i + 1) * stepsize)

/-- `get_mean_image` (`nn_utilities.py` lines 532-566) at a single bin:
`stepsize = n_rows / steps` (floor), per-step means, then the unweighted mean
of the step means. The number of `steps` (derived in the source from the file
size and the available memory) is a parameter. -/
def get_mean_image_col (xs : List ℚ) (steps : ℕ) : ℚ :=
  let stepsize := xs.length / steps
  listMean ((List.range steps).map (fun i => listMean (chunkSlice xs steps stepsize i)))

/-- `get_mean_image` on a dataset of image rows, evaluated at bin `bin`:
`np.mean(..., axis=0)` acts independently on every bin, so the image-level
computation is the column computation at each bin. -/
def get_mean_image (rows : List (ℕ → ℚ)) (steps bin : ℕ) : ℚ :=
  get_mean_image_col (rows.map (fun r => r bin)) steps

/-- Modelled from the spec: the exact per-bin mean over all rows of the
dataset, the value `get_mean_image` is specified to return. -/
def mean_image_true (rows : List (ℕ → ℚ)) (bin : ℕ) : ℚ :=
  listMean (rows.map (fun r => r bin))

/-- A Keras model as far as `model_setup.py` manipulates it: freshly built,
loaded from a checkpoint path, or wrapped by `make_parallel`. -/
inductive PModel where
  | fresh
  | loaded (path : String)
  | parallel (base : PModel) (ngpus : ℕ)
deriving DecidableEq

/-- The model-affecting calls `build_or_load_nn_model` and
`parallelize_model_to_n_gpus` perform, in order. -/
inductive ModelAction where
  | buildNew
  | loadModel (path : String)
  | compileModel
deriving DecidableEq

/-- Result of `parallelize_model_to_n_gpus`: the returned model, the returned
batchsize, and the compile calls performed on the way. -/
structure ParResult where
  model : PModel
  batchsize : ℤ
  actions : List ModelAction
deriving DecidableEq

/-- `parallelize_model_to_n_gpus` (`model_setup.py` lines 15-66).
`availGpus` is `len(get_available_gpus(n_gpu[0]))`, the number of available
GPUs reported by the external `multi_gpu` utility. For `n_gpu[0] == 1` the
model and batchsize are returned unchanged; for `n_gpu[0] > 1` the model is
data-parallelized, the batchsize is scaled by `availGpus` and the model is
re-compiled (line 61); a failed assert for `n_gpu[0] < 1` and the
non-`avolkov` `ValueError` are `Except.error`. -/
def parallelize_model_to_n_gpus (model : PModel) (n_gpu : ℤ × String)
    (availGpus : ℕ) (batchsize : ℤ) : Except String ParResult :=
  if n_gpu.2 = "avolkov" then
    if n_gpu.1 = 1 then .ok ⟨model, batchsize, []⟩
    else if 1 < n_gpu.1 then
      .ok ⟨.parallel model availGpus, batchsize * (availGpus : ℤ), [.compileModel]⟩
    else .error "AssertionError: You probably made a typo: n_gpu must be an int with n_gpu >= 1!"
  else .error "ValueError: Currently, no multi_gpu mode other than avolkov is available."

/-- The checkpoint path of `build_or_load_nn_model` (`model_setup.py`
line 197). -/
def checkpointPath (folder_name : String) (epoch : ℤ × ℤ) : String :=
  folder_name ++ "/saved_models/model_epoch_" ++ toString epoch.1 ++
    "_file_" ++ toString epoch.2 ++ ".h5"

/-- `build_or_load_nn_model` (`model_setup.py` lines 166-208) as the pair of
the parallelization result and the trace of model-affecting actions: build
fresh when `epoch[0] == 0` else load from `checkpointPath`; then parallelize
(which may itself compile); finally compile exactly when `epoch[0] == 0`
(line 205). The architecture arguments (`nn_arch`, `n_bins`, ...) only select
which fresh model `build_nn_model` assembles and are omitted. -/
def build_or_load_nn_model (epoch : ℤ × ℤ) (folder_name : String)
    (n_gpu : ℤ × String) (availGpus : ℕ) (batchsize : ℤ) :
    Except String (ParResult × List ModelAction) :=
  let path := checkpointPath folder_name epoch
  let model0 : PModel := if epoch.1 = 0 then .fresh else .loaded path
  let acts0 : List ModelAction :=
    if epoch.1 = 0 then [.buildNew] else [.loadModel path]
  match parallelize_model_to_n_gpus model0 n_gpu availGpus batchsize with
  | .ok pr =>
      .ok (pr, acts0 ++ pr.actions ++
        (if epoch.1 = 0 then [ModelAction.compileModel] else []))
  | .error e => .error e

/-- `load_zero_center_data` (`nn_utilities.py` lines 386-445) with the file
system abstracted: `n_inputs = len(train_files[0][0])` model inputs;
`precalc i` is the precalculated `xs_mean` found for input `i` in the
zero-center folder (`None` when absent), `computed i` the mean computed from
the train files for input `i`. The fold mirrors the loop body: on a
precalculated hit the mean is appended at line 424 and again at line 443;
otherwise the computed mean is appended once at line 443. -/
def load_zero_center_data {α : Type} (n_inputs : ℕ) (precalc : ℕ → Option α)
    (computed : ℕ → α) : List α :=
  (List.range n_inputs).foldl
    (fun xs_mean i =>
      match precalc i with
      | some m => (xs_mean ++ [m]) ++ [m]
      | none => xs_mean ++ [computed i])
    []

/-- Whether a modelled call returned normally (no exception). -/
def exceptOk {ε α : Type} : Except ε α → Bool
  | .ok _ => true
  | .error _ => false

/-- Witness row for the elec-NC regression-label theorem: an elec-NC event
(`particle_type = 12`, `is_cc = 0`) with energy 6 and bjorken-y 2. -/
def wRow5 : List ℚ := [0, 12, 6, 0, 2, 7, 8, 9]

/-- Witness label batch holding `wRow5`. -/
def wRows5 : List (List ℚ) := [wRow5]

/-- Witness pair of open files for the generator theorems. -/
def wFiles : List H5File := [⟨[[1, 2]], [[5]]⟩, ⟨[[3]], [[9]]⟩]

/-- The batch `batchAt wFiles 1 _ none 0` evaluates to (checked in the
corresponding witness theorem). -/
def wOut : GenOut :=
  ⟨[[[1, 2]], [[3]]],
   .regression [("dir_x", [0]), ("dir_y", [0]), ("dir_z", [0]),
                ("energy", [0]), ("bjorken-y", [0])],
   [[5]]⟩

/-! ## Helper lemmas -/

theorem getD_set_ne (l : List ℚ) (i j : ℕ) (v : ℚ) (h : i ≠ j) :
    (l.set i v).getD j 0 = l.getD j 0 := by
  simp [List.getD_eq_getElem?_getD, List.getElem?_set_ne h]

theorem getD_set_self (l : List ℚ) (i : ℕ) (v : ℚ) (h : i < l.length) :
    (l.set i v).getD i 0 = v := by
  simp [List.getD_eq_getElem?_getD, List.getElem?_set, h]

theorem batchXs_length (files : List H5File) (zc : Option (List (List ℚ)))
    (b n : ℕ) : (batchXs files zc b n).length = files.length := by
  simp [batchXs]

theorem batchXs_getElem_none (files : List H5File) (b n i : ℕ)
    (hi : i < files.length) :
    (batchXs files none b n)[i]? =
      some (pySlice (files.getD i emptyH5).x n (n + b)) := by
  simp [batchXs, List.getElem?_range hi]

theorem batchLoop_eq (b f : ℕ) (hb : 1 ≤ b) :
    ∀ n, batchLoop b f n = (List.range ((f - n) / b)).map (fun k => n + k * b) := by
  have main : ∀ d n, f - n ≤ d →
      batchLoop b f n = (List.range ((f - n) / b)).map (fun k => n + k * b) := by
    intro d
    induction d with
    | zero =>
      intro n hn
      rw [batchLoop]
      have hng : ¬(1 ≤ b ∧ n + b ≤ f) := by omega
      have h0 : (f - n) / b = 0 := Nat.div_eq_of_lt (by omega)
      simp [hng, h0]
    | succ d ih =>
      intro n hn
      rw [batchLoop]
      by_cases hc : 1 ≤ b ∧ n + b ≤ f
      · rw [dif_pos hc, ih (n + b) (by omega)]
        have hdiv : (f - n) / b = (f - (n + b)) / b + 1 := by
          have he : f - n = (f - (n + b)) + b := by omega
          rw [he, Nat.add_div_right _ (by omega)]
        rw [hdiv, List.range_succ_eq_map, List.map_cons, List.map_map]
        congr 1
        · simp
        · apply List.map_congr_left
          intro k _
          show n + b + k * b = n + (k + 1) * b
          ring
      · rw [dif_neg hc]
        have h0 : (f - n) / b = 0 := Nat.div_eq_of_lt (by omega)
        simp [h0]
  intro n
  exact main (f - n) n le_rfl

theorem batchStarts_eq (b f : ℕ) (hb : 1 ≤ b) :
    batchStarts b f = (List.range (f / b)).map (fun k => k * b) := by
  unfold batchStarts
  rw [batchLoop_eq b f hb 0]
  simp

theorem sum_map_div (l : List ℚ) (c : ℚ) :
    (l.map (fun a => a / c)).sum = l.sum / c := by
  induction l with
  | nil => simp
  | cons a l ih => simp [ih, add_div]

theorem chunk_sum (l : List ℚ) (s : ℕ) :
    ∀ k, ((List.range k).map (fun i => ((l.drop (i * s)).take s).sum)).sum =
      (l.take (k * s)).sum := by
  intro k
  induction k with
  | zero => simp
  | succ k ih =>
    rw [List.range_succ, List.map_append, List.sum_append, ih]
    rw [show (k + 1) * s = k * s + s by ring, List.take_add, List.sum_append]
    simp

theorem chunkSlice_eq_uniform (xs : List ℚ) (steps s i : ℕ)
    (hi : i < steps) (hlen : xs.length = steps * s) :
    chunkSlice xs steps s i = (xs.drop (i * s)).take s := by
  unfold chunkSlice pySlice
  split
  case isTrue h =>
    obtain ⟨t, rfl⟩ : ∃ t, steps = t + 1 := ⟨steps - 1, by omega⟩
    have hit : i = t := by
      rcases h with h | h
      · simpa using h
      · omega
    subst hit
    have hsub : xs.length - i * s = s := by
      rw [hlen, Nat.succ_mul]
      have : i * s ≤ i * s := le_rfl
      omega
    rw [hsub]
  case isFalse h =>
    have hsub : (i + 1) * s - i * s = s := by
      rw [Nat.succ_mul]
      omega
    rw [hsub]

theorem chunk_length (xs : List ℚ) (steps s i : ℕ)
    (hi : i < steps) (hlen : xs.length = steps * s) :
    ((xs.drop (i * s)).take s).length = s := by
  have hle : (i + 1) * s ≤ steps * s := Nat.mul_le_mul_right s (by omega)
  rw [Nat.succ_mul] at hle
  simp only [List.length_take, List.length_drop]
  omega

theorem get_mean_image_col_eq (xs : List ℚ) (steps : ℕ)
    (h1 : 1 ≤ steps) (h2 : steps ∣ xs.length) (h3 : 1 ≤ xs.length) :
    get_mean_image_col xs steps = listMean xs := by
  obtain ⟨s, hs⟩ := h2
  have hsz : xs.length / steps = s := by
    rw [hs]
    exact Nat.mul_div_cancel_left s (by omega)
  have hs1 : 1 ≤ s := by
    rcases Nat.eq_zero_or_pos s with h0 | h0
    · rw [h0, Nat.mul_zero] at hs
      omega
    · exact h0
  simp only [get_mean_image_col]
  rw [hsz]
  have hmap : (List.range steps).map (fun i => listMean (chunkSlice xs steps s i)) =
      ((List.range steps).map
        (fun i => ((xs.drop (i * s)).take s).sum)).map (fun a => a / (s : ℚ)) := by
    rw [List.map_map]
    apply List.map_congr_left
    intro i hi
    rw [List.mem_range] at hi
    show listMean (chunkSlice xs steps s i) = ((xs.drop (i * s)).take s).sum / (s : ℚ)
    rw [chunkSlice_eq_uniform xs steps s i hi hs]
    unfold listMean
    rw [chunk_length xs steps s i hi hs]
  rw [hmap]
  unfold listMean
  rw [sum_map_div, chunk_sum]
  simp only [List.length_map, List.length_range]
  rw [← hs, List.take_length, div_div]
  congr 1
  rw [hs]
  push_cast
  ring

/-! ## Claim theorems -/

/-- Claim C9: for every batchsize at least 1 and positive bin counts, the
dimensions tuple of `get_dimensions_encoding` has a product of entries equal
to `batchsize * n_bins[0] * n_bins[1] * n_bins[2] * n_bins[3]`, so the
reshape of a `batchsize`-row slice in the generator is size-preserving. -/
theorem get_dimensions_encoding_prod (x y z t b : ℕ) (hb : 1 ≤ b)
    (hx : 1 ≤ x) (hy : 1 ≤ y) (hz : 1 ≤ z) (ht : 1 ≤ t) :
    (get_dimensions_encoding (x, y, z, t) b).prod = b * x * y * z * t := by
  simp only [get_dimensions_encoding]
  split_ifs <;> simp_all <;> ring

theorem get_dimensions_encoding_prod_witness :
    1 ≤ 2 ∧ 1 ≤ 1 ∧ 1 ≤ 3 ∧ 1 ≤ 4 ∧ 1 ≤ 5 ∧
    (get_dimensions_encoding (1, 3, 4, 5) 2).prod = 2 * 1 * 3 * 4 * 5 :=
  ⟨by decide, by decide, by decide, by decide, by decide,
   get_dimensions_encoding_prod 1 3 4 5 2 (by decide) (by decide) (by decide)
     (by decide) (by decide)⟩

/-- Claim C10: for every class_type whose identifier is none of
`track-shower`, `up_down`, `tau-CC_vs_other_neutrinos`, `encode_targets`
raises no error and returns the input event array `y_val` itself. -/
theorem encode_targets_unknown_class_returns_input (y_val : List ℚ)
    (class_type : ℕ × String) (rnd : ℕ)
    (h1 : class_type.2 ≠ "track-shower") (h2 : class_type.2 ≠ "up_down")
    (h3 : class_type.2 ≠ "tau-CC_vs_other_neutrinos") :
    encode_targets y_val class_type rnd = .ok y_val := by
  simp [encode_targets, h1, h2, h3]

theorem encode_targets_unknown_class_returns_input_witness :
    ((3, "energy") : ℕ × String).2 ≠ "track-shower" ∧
    ((3, "energy") : ℕ × String).2 ≠ "up_down" ∧
    ((3, "energy") : ℕ × String).2 ≠ "tau-CC_vs_other_neutrinos" ∧
    encode_targets [5, 14, 2] (3, "energy") 0 = .ok [5, 14, 2] :=
  ⟨by decide, by decide, by decide,
   encode_targets_unknown_class_returns_input [5, 14, 2] (3, "energy") 0
     (by decide) (by decide) (by decide)⟩

/-- Claim C4: for class_type `(2, track-shower)` and every event row whose
pair `(abs(particle_type), is_cc)` is one of `(12,0)`, `(12,1)`, `(14,1)`,
`(16,1)`, `encode_targets` returns a one-hot vector of length 2 whose entry 1
is set exactly for muon-CC (`abs(particle_type) = 14`, `is_cc = 1`) and whose
entry 0 is set in every other case. -/
theorem encode_targets_track_shower (y_val : List ℚ) (rnd : ℕ)
    (hp : (|y_val.getD 1 0| = 12 ∧ y_val.getD 3 0 = 0) ∨
          (|y_val.getD 1 0| = 12 ∧ y_val.getD 3 0 = 1) ∨
          (|y_val.getD 1 0| = 14 ∧ y_val.getD 3 0 = 1) ∨
          (|y_val.getD 1 0| = 16 ∧ y_val.getD 3 0 = 1)) :
    encode_targets y_val (2, "track-shower") rnd =
      .ok (if |y_val.getD 1 0| = 14 ∧ y_val.getD 3 0 = 1
           then [0, 1] else [1, 0]) := by
  rcases hp with ⟨h1, h2⟩ | ⟨h1, h2⟩ | ⟨h1, h2⟩ | ⟨h1, h2⟩ <;>
    simp only [List.getD_eq_getElem?_getD] at h1 h2 <;>
    norm_num [encode_targets, convert_particle_class_to_categorical,
      particle_type_dict, oneHotQ, h1, h2, Prod.ext_iff, List.replicate]

theorem encode_targets_track_shower_witness :
    (|([0, 14, 0, 1] : List ℚ).getD 1 0| = 14 ∧
      ([0, 14, 0, 1] : List ℚ).getD 3 0 = 1) ∧
    encode_targets [0, 14, 0, 1] (2, "track-shower") 0 =
      .ok (if |([0, 14, 0, 1] : List ℚ).getD 1 0| = 14 ∧
              ([0, 14, 0, 1] : List ℚ).getD 3 0 = 1
           then [0, 1] else [1, 0]) :=
  ⟨by decide,
   encode_targets_track_shower [0, 14, 0, 1] 0 (Or.inr (Or.inr (Or.inl (by decide))))⟩

/-- Claim C7: in multi-gpu mode `avolkov`, `parallelize_model_to_n_gpus`
returns the input model and batchsize unchanged for `n_gpu[0] == 1`, scales
the batchsize by the number of available GPUs for `n_gpu[0] > 1`, and raises
`ValueError` for every other mode string. -/
theorem parallelize_model_avolkov_spec (model : PModel) (availGpus : ℕ) (bs : ℤ) :
    parallelize_model_to_n_gpus model (1, "avolkov") availGpus bs =
      .ok ⟨model, bs, []⟩ ∧
    (∀ n : ℤ, 1 < n →
      parallelize_model_to_n_gpus model (n, "avolkov") availGpus bs =
        .ok ⟨.parallel model availGpus, bs * (availGpus : ℤ), [.compileModel]⟩) ∧
    (∀ (n : ℤ) (mode : String), mode ≠ "avolkov" →
      parallelize_model_to_n_gpus model (n, mode) availGpus bs =
        .error "ValueError: Currently, no multi_gpu mode other than avolkov is available.") := by
  refine ⟨by simp [parallelize_model_to_n_gpus], ?_, ?_⟩
  · intro n hn
    have hne : n ≠ 1 := by omega
    simp [parallelize_model_to_n_gpus, hne, hn]
  · intro n mode hm
    simp [parallelize_model_to_n_gpus, hm]

theorem parallelize_model_avolkov_spec_witness :
    parallelize_model_to_n_gpus .fresh (1, "avolkov") 4 16 = .ok ⟨.fresh, 16, []⟩ ∧
    ((1 : ℤ) < 2 ∧
      parallelize_model_to_n_gpus .fresh (2, "avolkov") 4 16 =
        .ok ⟨.parallel .fresh 4, 16 * ((4 : ℕ) : ℤ), [.compileModel]⟩) ∧
    ("sgd" ≠ "avolkov" ∧
      parallelize_model_to_n_gpus .fresh (2, "sgd") 4 16 =
        .error "ValueError: Currently, no multi_gpu mode other than avolkov is available.") :=
  ⟨(parallelize_model_avolkov_spec .fresh 4 16).1,
   ⟨by decide, (parallelize_model_avolkov_spec .fresh 4 16).2.1 2 (by decide)⟩,
   ⟨by decide, (parallelize_model_avolkov_spec .fresh 4 16).2.2 2 "sgd" (by decide)⟩⟩

/-- Claim C8 (code bug): with a single model input whose precalculated
zero-center file is found, `load_zero_center_data` returns a list of length 2,
not 1 -- the loaded mean is appended at line 424 and again at line 443,
contradicting the documented one-array-per-model-input contract. -/
theorem load_zero_center_double_append :
    load_zero_center_data 1 (fun _ => some (0 : ℚ)) (fun _ => 0) = [0, 0] ∧
    (load_zero_center_data 1 (fun _ => some (0 : ℚ)) (fun _ => 0)).length ≠ 1 := by
  constructor
  · rfl
  · decide

/-- Claim C6 counterexample: resuming from a checkpoint (`epoch = (1, 1)`)
with `n_gpu[0] = 2` loads the model from the documented path but then DOES
call compile again (inside `parallelize_model_to_n_gpus`, line 61), so the
claim that a loaded model is never recompiled is false as stated. -/
theorem build_or_load_recompiles_counterexample :
    build_or_load_nn_model (1, 1) "models" (2, "avolkov") 4 16 =
      .ok (⟨.parallel (.loaded "models/saved_models/model_epoch_1_file_1.h5") 4,
            64,
            [.compileModel]⟩,
           [.loadModel "models/saved_models/model_epoch_1_file_1.h5",
            .compileModel]) ∧
    ModelAction.compileModel ∈
      [ModelAction.loadModel "models/saved_models/model_epoch_1_file_1.h5",
       ModelAction.compileModel] := by
  constructor
  · rfl
  · decide

/-- Claim C6 (amended): with `n_gpu[0] == 1` (mode `avolkov`),
`build_or_load_nn_model` builds a fresh model and compiles it exactly when
`epoch[0] == 0`, and for `epoch[0] != 0` loads the checkpoint from
`folder_name + "/saved_models/model_epoch_" + epoch[0] + "_file_" + epoch[1]
+ ".h5"` without calling compile on it again; with `n_gpu[0] > 1` the
parallelization step recompiles even a loaded model. -/
theorem build_or_load_compile_policy_single_gpu (epoch : ℤ × ℤ)
    (folder_name : String) (availGpus : ℕ) (bs : ℤ) :
    build_or_load_nn_model epoch folder_name (1, "avolkov") availGpus bs =
      .ok (⟨if epoch.1 = 0 then .fresh
            else .loaded (checkpointPath folder_name epoch), bs, []⟩,
           if epoch.1 = 0 then [ModelAction.buildNew, ModelAction.compileModel]
           else [ModelAction.loadModel (checkpointPath folder_name epoch)]) := by
  by_cases h : epoch.1 = 0 <;>
    simp [build_or_load_nn_model, parallelize_model_to_n_gpus, h]

theorem col_map_getElem (j m : ℕ) (rows : List (List ℚ)) (r : List ℚ)
    (hm : rows[m]? = some r) :
    (col j (rows.map correct_elec_nc))[m]? = some ((correct_elec_nc r).getD j 0) := by
  simp [col, hm]

theorem regression_cols_semantics (y_values : List (List ℚ)) (m : ℕ) (r : List ℚ)
    (hm : y_values[m]? = some r) (hr : 8 ≤ r.length) :
    (col 2 (y_values.map correct_elec_nc))[m]? =
      some (if |r.getD 1 0| = 12 ∧ r.getD 3 0 = 0
            then r.getD 2 0 * r.getD 4 0 else r.getD 2 0) ∧
    (col 4 (y_values.map correct_elec_nc))[m]? =
      some (if |r.getD 1 0| = 12 ∧ r.getD 3 0 = 0 then 1 else r.getD 4 0) ∧
    ∀ j, j ≠ 2 → j ≠ 4 → (correct_elec_nc r).getD j 0 = r.getD j 0 := by
  refine ⟨?_, ?_, ?_⟩
  · rw [col_map_getElem 2 m y_values r hm]
    by_cases hec : |r.getD 1 0| = 12 ∧ r.getD 3 0 = 0
    · rw [if_pos hec]
      congr 1
      unfold correct_elec_nc
      rw [if_pos hec, getD_set_ne _ 4 2 _ (by omega), getD_set_self _ 2 _ (by omega)]
    · rw [if_neg hec]
      congr 1
      unfold correct_elec_nc
      rw [if_neg hec]
  · rw [col_map_getElem 4 m y_values r hm]
    by_cases hec : |r.getD 1 0| = 12 ∧ r.getD 3 0 = 0
    · rw [if_pos hec]
      congr 1
      unfold correct_elec_nc
      rw [if_pos hec]
      have hlen : 4 < (r.set 2 (r.getD 2 0 * r.getD 4 0)).length := by
        rw [List.length_set]
        omega
      rw [getD_set_self _ 4 _ hlen]
    · rw [if_neg hec]
      congr 1
      unfold correct_elec_nc
      rw [if_neg hec]
  · intro j hj2 hj4
    unfold correct_elec_nc
    by_cases hec : |r.getD 1 0| = 12 ∧ r.getD 3 0 = 0
    · rw [if_pos hec, getD_set_ne _ 4 j _ (by omega), getD_set_ne _ 2 j _ (by omega)]
    · rw [if_neg hec]

/-- Claim C5: for class_type identifiers `energy_dir_bjorken-y_errors` and
`energy_dir_bjorken-y_vtx_errors`, `get_regression_labels` replaces, for every
event with `abs(particle_type) == 12` and `is_cc == 0`, the energy label by
`energy * bjorken-y` and the bjorken-y label by 1, and leaves the labels of
every other event equal to the values read from the file (columns other than
2 and 4 are never touched). -/
theorem get_regression_labels_elec_nc_visible_energy
    (y_values : List (List ℚ)) (cn : ℕ) (cs : String)
    (hct : cs = "energy_dir_bjorken-y_errors" ∨
           cs = "energy_dir_bjorken-y_vtx_errors")
    (m : ℕ) (r : List ℚ) (hm : y_values[m]? = some r) (hr : 8 ≤ r.length) :
    exceptOk (get_regression_labels y_values (cn, cs)) = true ∧
    (labelCol (get_regression_labels y_values (cn, cs)) "e")[m]? =
      some (if |r.getD 1 0| = 12 ∧ r.getD 3 0 = 0
            then r.getD 2 0 * r.getD 4 0 else r.getD 2 0) ∧
    (labelCol (get_regression_labels y_values (cn, cs)) "by")[m]? =
      some (if |r.getD 1 0| = 12 ∧ r.getD 3 0 = 0 then 1 else r.getD 4 0) ∧
    ∀ j, j ≠ 2 → j ≠ 4 → (correct_elec_nc r).getD j 0 = r.getD j 0 := by
  rcases hct with rfl | rfl <;>
    exact ⟨rfl, (regression_cols_semantics y_values m r hm hr).1,
      (regression_cols_semantics y_values m r hm hr).2.1,
      (regression_cols_semantics y_values m r hm hr).2.2⟩

theorem get_regression_labels_elec_nc_visible_energy_witness :
    wRows5[0]? = some wRow5 ∧ 8 ≤ wRow5.length ∧
    exceptOk (get_regression_labels wRows5 (1, "energy_dir_bjorken-y_errors")) = true ∧
    (labelCol (get_regression_labels wRows5 (1, "energy_dir_bjorken-y_errors")) "e")[0]? =
      some (if |wRow5.getD 1 0| = 12 ∧ wRow5.getD 3 0 = 0
            then wRow5.getD 2 0 * wRow5.getD 4 0 else wRow5.getD 2 0) ∧
    (labelCol (get_regression_labels wRows5 (1, "energy_dir_bjorken-y_errors")) "by")[0]? =
      some (if |wRow5.getD 1 0| = 12 ∧ wRow5.getD 3 0 = 0 then 1 else wRow5.getD 4 0) ∧
    (correct_elec_nc wRow5).getD 5 0 = wRow5.getD 5 0 :=
  ⟨by decide, by decide,
   (get_regression_labels_elec_nc_visible_energy wRows5 1 _ (Or.inl rfl) 0 wRow5
     (by decide) (by decide)).1,
   (get_regression_labels_elec_nc_visible_energy wRows5 1 _ (Or.inl rfl) 0 wRow5
     (by decide) (by decide)).2.1,
   (get_regression_labels_elec_nc_visible_energy wRows5 1 _ (Or.inl rfl) 0 wRow5
     (by decide) (by decide)).2.2.1,
   (get_regression_labels_elec_nc_visible_energy wRows5 1 _ (Or.inl rfl) 0 wRow5
     (by decide) (by decide)).2.2.2 5 (by decide) (by decide)⟩

/-- Claim C1: for every file list, batchsize `b ≥ 1` and effective file size
`f_size ≥ b`, one pass of the inner loop of `generate_batches_from_hdf5_file`
yields exactly `f_size / b` (floor) batches; the k-th batch is produced at
offset `k * b` (reading rows `k*b` to `(k+1)*b - 1`), and `(k+1)*b ≤ f_size`,
so no yielded batch contains a row with index at least `f_size`. -/
theorem generate_batches_pass_count_and_slices
    (files : List H5File) (class_type : ℕ × String)
    (zero_center_image : Option (List (List ℚ))) (b f_size : ℕ)
    (hb : 1 ≤ b) (hf : b ≤ f_size) :
    (generatorPass files b f_size class_type zero_center_image).length = f_size / b ∧
    ∀ k, k < f_size / b →
      (generatorPass files b f_size class_type zero_center_image)[k]? =
        some (batchAt files b class_type zero_center_image (k * b)) ∧
      (k + 1) * b ≤ f_size := by
  unfold generatorPass
  rw [batchStarts_eq b f_size hb]
  refine ⟨by simp, ?_⟩
  intro k hk
  refine ⟨?_, ?_⟩
  · simp [List.getElem?_range hk]
  · exact (Nat.le_div_iff_mul_le (by omega)).mp (Nat.succ_le_of_lt hk)

theorem generate_batches_pass_count_and_slices_witness :
    1 ≤ 2 ∧ 2 ≤ 5 ∧
    (generatorPass wFiles 2 5 (1, "energy_and_direction_and_bjorken-y") none).length = 5 / 2 ∧
    (generatorPass wFiles 2 5 (1, "energy_and_direction_and_bjorken-y") none)[1]? =
      some (batchAt wFiles 2 (1, "energy_and_direction_and_bjorken-y") none (1 * 2)) ∧
    (1 + 1) * 2 ≤ 5 :=
  ⟨by decide, by decide,
   (generate_batches_pass_count_and_slices wFiles
     (1, "energy_and_direction_and_bjorken-y") none 2 5 (by decide) (by decide)).1,
   ((generate_batches_pass_count_and_slices wFiles
     (1, "energy_and_direction_and_bjorken-y") none 2 5 (by decide) (by decide)).2
     1 (by decide)).1,
   ((generate_batches_pass_count_and_slices wFiles
     (1, "energy_and_direction_and_bjorken-y") none 2 5 (by decide) (by decide)).2
     1 (by decide)).2⟩

/-- Claim C2: for every non-empty file list, a batch produced at offset
`n_entries` (with `swap_col = None`, no zero-centering) takes the image slice
`[n_entries, n_entries + batchsize)` from every one of the files, one input
array per file in file order, while the label values `y_values` are read from
the same slice of the first file only. -/
theorem generate_batches_xs_per_file_y_from_first
    (files : List H5File) (hn : 1 ≤ files.length) (b n : ℕ)
    (class_type : ℕ × String) (out : GenOut)
    (hout : batchAt files b class_type none n = .ok out) :
    out.xs_list.length = files.length ∧
    (∀ i, i < files.length →
      out.xs_list[i]? = some (pySlice (files.getD i emptyH5).x n (n + b))) ∧
    out.y_values = pySlice (files.getD 0 emptyH5).y n (n + b) := by
  simp only [batchAt] at hout
  split at hout
  · split at hout
    · cases hout
      refine ⟨?_, ?_, rfl⟩
      · exact batchXs_length files none b n
      · exact fun i hi => batchXs_getElem_none files b n i hi
    · simp at hout
  · split at hout
    · cases hout
      refine ⟨?_, ?_, rfl⟩
      · exact batchXs_length files none b n
      · exact fun i hi => batchXs_getElem_none files b n i hi
    · simp at hout

theorem generate_batches_xs_per_file_y_from_first_witness :
    1 ≤ wFiles.length ∧
    batchAt wFiles 1 (1, "energy_and_direction_and_bjorken-y") none 0 = .ok wOut ∧
    wOut.xs_list.length = wFiles.length ∧
    wOut.xs_list[0]? = some (pySlice (wFiles.getD 0 emptyH5).x 0 (0 + 1)) ∧
    wOut.xs_list[1]? = some (pySlice (wFiles.getD 1 emptyH5).x 0 (0 + 1)) ∧
    wOut.y_values = pySlice (wFiles.getD 0 emptyH5).y 0 (0 + 1) :=
  ⟨by decide, rfl,
   (generate_batches_xs_per_file_y_from_first wFiles (by decide) 1 0
     (1, "energy_and_direction_and_bjorken-y") wOut rfl).1,
   (generate_batches_xs_per_file_y_from_first wFiles (by decide) 1 0
     (1, "energy_and_direction_and_bjorken-y") wOut rfl).2.1 0 (by decide),
   (generate_batches_xs_per_file_y_from_first wFiles (by decide) 1 0
     (1, "energy_and_direction_and_bjorken-y") wOut rfl).2.1 1 (by decide),
   (generate_batches_xs_per_file_y_from_first wFiles (by decide) 1 0
     (1, "energy_and_direction_and_bjorken-y") wOut rfl).2.2⟩

/-- Claim C3 counterexample: on a 3-row dataset split into 2 steps
(`stepsize = 1`, so the chunks have sizes 1 and 2), the mean of the per-chunk
means computed by `get_mean_image` differs from the mean of the whole
dataset; the claim as stated (every `n_rows ≥ 1`, every `steps ≥ 1`) is
false. -/
theorem get_mean_image_not_exact_counterexample :
    get_mean_image [fun _ => 0, fun _ => 0, fun _ => 3] 2 0 ≠
      mean_image_true [fun _ => 0, fun _ => 0, fun _ => 3] 0 := by
  norm_num [get_mean_image, get_mean_image_col, mean_image_true, listMean,
    chunkSlice, pySlice, List.range_succ]

/-- Claim C3 (amended): `get_mean_image` splits the mean-image computation
into `steps` memory-bounded chunks, and whenever `steps ≥ 1` divides the
number of rows `n_rows ≥ 1` (so that all chunks have equal size), the mean of
the per-chunk means it computes equals the per-bin mean of the whole
dataset. -/
theorem get_mean_image_exact_of_dvd (rows : List (ℕ → ℚ)) (steps bin : ℕ)
    (h1 : 1 ≤ steps) (h2 : steps ∣ rows.length) (h3 : 1 ≤ rows.length) :
    get_mean_image rows steps bin = mean_image_true rows bin := by
  unfold get_mean_image mean_image_true
  apply get_mean_image_col_eq
  · exact h1
  · simpa using h2
  · simpa using h3

theorem get_mean_image_exact_of_dvd_witness :
    1 ≤ 2 ∧ (2 ∣ ([fun _ => 1, fun _ => 3] : List (ℕ → ℚ)).length) ∧
    1 ≤ ([fun _ => 1, fun _ => 3] : List (ℕ → ℚ)).length ∧
    get_mean_image [fun _ => 1, fun _ => 3] 2 0 =
      mean_image_true [fun _ => 1, fun _ => 3] 0 :=
  ⟨by decide, ⟨1, rfl⟩, by decide,
   get_mean_image_exact_of_dvd [fun _ => 1, fun _ => 3] 2 0
     (by decide) ⟨1, rfl⟩ (by decide)⟩
